import Mathlib

/-!
Verification development for the signal-based failure classification engine
(error classification utilities of the directory scraper).

The definitions below are a shallow embedding of the JavaScript source:
JS strings are Lean `String`, nullable values are `Option`, the process-wide
debounce `Map` is an explicit map threaded through calls, `Date.now()` and
`Math.random()` are explicit parameters, and numbers used by the backoff
calculator are exact rationals.
-/

/-! Part: JavaScript string primitives -/

/-- Infix (substring) test on character lists; `charsInfixOf sub hay` is true
iff `sub` occurs contiguously inside `hay` (the empty list occurs anywhere).
Models `String.prototype.includes`. -/
def charsInfixOf : List Char → List Char → Bool
  | sub, [] => sub.isEmpty
  | sub, c :: t => sub.isPrefixOf (c :: t) || charsInfixOf sub t

/-- Models JS `s.includes(sub)`. -/
def jsIncludes (s sub : String) : Bool :=
  charsInfixOf sub.data s.data

/-- Models JS `s.toLowerCase()` (per-character lowering). -/
def jsToLower (s : String) : String :=
  String.mk (s.data.map Char.toLower)

/-- Models JS `s.slice(0, n)` for a nonnegative bound `n`. -/
def jsSliceStr (s : String) (n : Nat) : String :=
  String.mk (s.data.take n)

/-- Models JS `arr.slice(-n)`: the last `n` elements. -/
def jsSliceLast {α : Type} (l : List α) (n : Nat) : List α :=
  l.drop (l.length - n)

/-! Part: Constant tables (source: ERROR_TYPES, CHALLENGE_INDICATORS,
BLOCKING_STATUS_CODES, NON_CRITICAL_RESOURCES) -/

/-- The fixed error-type enumeration `ERROR_TYPES`. -/
inductive ErrorType
  | BLOCKED
  | RATE_LIMITED
  | SLOW_LOAD
  | NETWORK_ERROR
  | CHALLENGE_PAGE
  | UNKNOWN_TIMEOUT
  | VALIDATION_ERROR
  | EXTRACTION_ERROR
deriving DecidableEq

/-- The confidence levels used by the classifier. -/
inductive Confidence
  | high
  | medium
  | low
deriving DecidableEq

/-- Models `CHALLENGE_INDICATORS`: category name to case-insensitively matched
body substrings. -/
def CHALLENGE_INDICATORS : List (String × List String) :=
  [("CLOUDFLARE", ["Checking your browser", "Cloudflare", "cf-ray"]),
   ("AKAMAI", ["Akamai", "challenge", "akamai-gtm"]),
   ("CAPTCHA", ["captcha", "CAPTCHA", "recaptcha", "hcaptcha"]),
   ("BOT_DETECTION", ["bot", "automation", "suspicious", "security check"])]

/-- Models `BLOCKING_STATUS_CODES`: status code to human label. -/
def BLOCKING_STATUS_CODES : List (Int × String) :=
  [(403, "forbidden"),
   (429, "rate_limited"),
   (503, "service_unavailable"),
   (451, "unavailable_for_legal_reasons")]

/-- Models `NON_CRITICAL_RESOURCES`: category name to URL substring patterns. -/
def NON_CRITICAL_RESOURCES : List (String × List String) :=
  [("IMAGES", [".jpg", ".jpeg", ".png", ".gif", ".webp", ".svg", ".ico"]),
   ("FONTS", [".woff", ".woff2", ".ttf", ".eot"]),
   ("ANALYTICS", ["analytics", "tagmanager", "gtm", "googletagmanager"]),
   ("TRACKING", ["tracking", "pixel", "beacon"]),
   ("CONSENT", ["consent", "privacy", "gdpr"]),
   ("ADS", ["ads", "advertising", "doubleclick"]),
   ("SOCIAL", ["facebook", "twitter", "linkedin", "instagram"]),
   ("CDN", ["cdn", "static", "assets"])]

/-! Part: ResourceClassifier -/

/-- Models `isNonCriticalResource(url, contentType = '')`: true if the lowercased
URL contains any pattern of any `NON_CRITICAL_RESOURCES` category, or the
lowercased content type contains `image/`, `font/` or `text/css`.
The JS default argument `contentType = ''` is passed explicitly at the one
call site that omits it. -/
def isNonCriticalResource (url contentType : String) : Bool :=
  let urlLower := jsToLower url
  let contentTypeLower := jsToLower contentType
  if NON_CRITICAL_RESOURCES.any (fun cat => cat.2.any (fun pattern => jsIncludes urlLower pattern)) then
    true
  else if jsIncludes contentTypeLower "image/" || jsIncludes contentTypeLower "font/" ||
      jsIncludes contentTypeLower "text/css" then
    true
  else
    false

/-! Part: SuggestionDebouncer -/

/-- The process-wide `suggestionDebounce` map, made explicit: a map from
string keys to the last-emission timestamp (`Date.now()` value). -/
def DebMap : Type := String → Option Nat

/-- The initial (empty) debounce map: `new Map()`. -/
def emptyDebMap : DebMap := fun _ => none

/-- Models `map.set(key, value)` on the debounce map. -/
def debSet (m : DebMap) (k : String) (v : Nat) : DebMap :=
  fun k2 => if k2 = k then some v else m k2

/-- The debounce key: JS template literal `requestId:suggestion`. -/
def debKey (requestId suggestion : String) : String :=
  requestId ++ ":" ++ suggestion

/-- Models `shouldLogSuggestion(suggestion, requestId, cooldownMs = 5000)` with the
map and the clock made explicit; returns the boolean result and the map
after the call.  The JS guard is `!lastLog || (now - lastLog) > cooldownMs`,
so a stored timestamp of `0` is falsy and counts as an absent entry, and
the comparison is a strict `>` over JS numbers (here: integers). -/
def shouldLogSuggestion (m : DebMap) (suggestion requestId : String) (now cooldownMs : Nat) :
    Bool × DebMap :=
  match m (debKey requestId suggestion) with
  | none => (true, debSet m (debKey requestId suggestion) now)
  | some lastLog =>
    if lastLog = 0 ∨ (cooldownMs : Int) < (now : Int) - (lastLog : Int) then
      (true, debSet m (debKey requestId suggestion) now)
    else
      (false, m)

/-! Part: BackoffCalculator -/

/-- The backoff hint record produced by `calculateBackoffHint`. -/
structure BackoffHint where
  baseDelay : ℚ
  maxDelay : ℚ
  jitter : ℚ
  suggestedDelay : ℚ
deriving DecidableEq

/-- Models `calculateBackoffHint()`, with `Math.random()` (a draw in `[0, 1)`) made
an explicit argument: `jitter = rand * 0.3 + 0.85`,
`suggestedDelay = min(baseDelay * jitter, maxDelay)`. -/
def calculateBackoffHint (rand : ℚ) : BackoffHint :=
  let baseDelay : ℚ := 5000
  let maxDelay : ℚ := 300000
  let jitter : ℚ := rand * 0.3 + 0.85
  { baseDelay := baseDelay, maxDelay := maxDelay, jitter := jitter,
    suggestedDelay := min (baseDelay * jitter) maxDelay }

/-! Part: ErrorClassifier: signal bundle, derived signals, classification -/

/-- One entry of `networkErrors`. -/
structure NetworkError where
  url : Option String
  failureReason : Option String
  method : Option String
deriving DecidableEq

/-- One entry of `consoleErrors`. -/
structure ConsoleError where
  message : Option String
  sourceUrl : Option String
deriving DecidableEq

/-- One entry of `pageErrors`. -/
structure PageError where
  message : Option String
  stackSummary : Option String
deriving DecidableEq

/-- The destructured argument of `classifyError` (the signal bundle).
Nullable/omittable JS fields are `Option`; `url` is always a string and
`contentType` defaults to the empty string at the JS call boundary. -/
structure SignalBundle where
  statusCode : Option Int
  responseBody : Option String
  consoleErrors : Option (List ConsoleError)
  networkErrors : Option (List NetworkError)
  pageErrors : Option (List PageError)
  navigationTimeout : Bool
  errorMessage : Option String
  url : String
  contentType : String
  requestId : Option String

/-- The derived `signals` record echoed in every classification result. -/
structure Signals where
  statusCode : Option Int
  hasChallengePage : Bool
  hasBlockingStatus : Bool
  hasNetworkFailures : Bool
  hasConsoleErrors : Bool
  hasPageErrors : Bool
  isTimeout : Bool
  isNonCriticalResource : Bool
deriving DecidableEq

/-- The classification result record. -/
structure Classification where
  type : ErrorType
  confidence : Confidence
  signals : Signals
  suggestedAction : String
  backoffHint : Option BackoffHint
  shouldLog : Bool
  isRootCause : Bool
deriving DecidableEq

/-- The ambient process state read by `classifyError`: the debounce map,
`Date.now()`, and the `Math.random()` draw used by the backoff calculator. -/
structure ClassifyCtx where
  debounce : DebMap
  now : Nat
  rand : ℚ

/-- The challenge-page body test: lowercase the body once, then scan the
categories of `CHALLENGE_INDICATORS` for any indicator whose lowercase form
occurs in it (the JS for-loop with `break` is an existential scan). -/
def challengeBodyMatch (body : String) : Bool :=
  let bodyLower := jsToLower body
  CHALLENGE_INDICATORS.any (fun cat => cat.2.any (fun indicator => jsIncludes bodyLower (jsToLower indicator)))

/-- JS `error.url || url`: an absent or empty entry URL falls back to the
request URL. -/
def entryUrl (e : NetworkError) (url : String) : String :=
  match e.url with
  | some u => if u = "" then url else u
  | none => url

/-- The derived signal flags computed at the top of `classifyError`.
Truthiness guards of the source are kept: `statusCode &&
BLOCKING_STATUS_CODES[statusCode]` (0 is falsy), `if (responseBody)` (the
empty string is falsy), `errorMessage && errorMessage.includes('timeout')`. -/
def computeSignals (b : SignalBundle) : Signals :=
  { statusCode := b.statusCode
    hasChallengePage :=
      match b.responseBody with
      | some body => if body = "" then false else challengeBodyMatch body
      | none => false
    hasBlockingStatus :=
      match b.statusCode with
      | some c => if c = 0 then false else (List.lookup c BLOCKING_STATUS_CODES).isSome
      | none => false
    hasNetworkFailures :=
      match b.networkErrors with
      | some errs =>
        if errs.length > 0 then
          (errs.filter (fun e => !isNonCriticalResource (entryUrl e b.url) "")).length > 0
        else false
      | none => false
    hasConsoleErrors :=
      match b.consoleErrors with
      | some l => l.length > 0
      | none => false
    hasPageErrors :=
      match b.pageErrors with
      | some l => l.length > 0
      | none => false
    isTimeout :=
      b.navigationTimeout ||
        (match b.errorMessage with
         | some m => if m = "" then false else jsIncludes m "timeout"
         | none => false)
    isNonCriticalResource := isNonCriticalResource b.url b.contentType }

/-- The per-branch `shouldLog` computation, JS
`requestId ? shouldLogSuggestion(suggestion, requestId, cooldownMs) : true`
(an absent or empty `requestId` is falsy and leaves the map untouched).
Returns the flag and the debounce map after the call. -/
def branchShouldLog (debounce : DebMap) (now : Nat) (requestId : Option String)
    (suggestion : String) (cooldownMs : Nat) : Bool × DebMap :=
  match requestId with
  | some rid => if rid = "" then (true, debounce) else shouldLogSuggestion debounce suggestion rid now cooldownMs
  | none => (true, debounce)

/-- Models `classifyError(bundle)`: the priority cascade over the derived signals,
with the ambient state explicit.  Returns the classification together with
the debounce map after the call. -/
def classifyError (b : SignalBundle) (ctx : ClassifyCtx) : Classification × DebMap :=
  let signals := computeSignals b
  if signals.hasChallengePage then
    let r := branchShouldLog ctx.debounce ctx.now b.requestId "use_residential_proxy" 5000
    ({ type := ErrorType.CHALLENGE_PAGE, confidence := Confidence.high, signals := signals,
       suggestedAction := "use_residential_proxy", backoffHint := none,
       shouldLog := r.1, isRootCause := true }, r.2)
  else if b.statusCode = some 429 then
    let r := branchShouldLog ctx.debounce ctx.now b.requestId "exponential_backoff" 5000
    ({ type := ErrorType.RATE_LIMITED, confidence := Confidence.high, signals := signals,
       suggestedAction := "exponential_backoff",
       backoffHint := some (calculateBackoffHint ctx.rand),
       shouldLog := r.1, isRootCause := true }, r.2)
  else if b.statusCode = some 403 ∨ b.statusCode = some 451 then
    let r := branchShouldLog ctx.debounce ctx.now b.requestId "rotate_proxy" 5000
    ({ type := ErrorType.BLOCKED, confidence := Confidence.high, signals := signals,
       suggestedAction := "rotate_proxy", backoffHint := none,
       shouldLog := r.1, isRootCause := true }, r.2)
  else if signals.hasNetworkFailures && !signals.isNonCriticalResource then
    let r := branchShouldLog ctx.debounce ctx.now b.requestId "retry_with_delay" 10000
    ({ type := ErrorType.NETWORK_ERROR, confidence := Confidence.medium, signals := signals,
       suggestedAction := "retry_with_delay", backoffHint := none,
       shouldLog := r.1, isRootCause := false }, r.2)
  else if signals.isTimeout && !signals.hasChallengePage then
    let r := branchShouldLog ctx.debounce ctx.now b.requestId "increase_timeout" 5000
    ({ type := ErrorType.SLOW_LOAD, confidence := Confidence.medium, signals := signals,
       suggestedAction := "increase_timeout", backoffHint := none,
       shouldLog := r.1, isRootCause := false }, r.2)
  else if signals.isTimeout then
    let r := branchShouldLog ctx.debounce ctx.now b.requestId "enable_debug_mode" 5000
    ({ type := ErrorType.UNKNOWN_TIMEOUT, confidence := Confidence.low, signals := signals,
       suggestedAction := "enable_debug_mode", backoffHint := none,
       shouldLog := r.1, isRootCause := false }, r.2)
  else
    ({ type := ErrorType.UNKNOWN_TIMEOUT, confidence := Confidence.low, signals := signals,
       suggestedAction := "enable_debug_mode", backoffHint := none,
       shouldLog := false, isRootCause := false }, ctx.debounce)

/-! Part: EarlyChallengeDetector -/

/-- The outcome of one asynchronous probe: it either resolved to a boolean
or rejected.  The probes query the live page (title text, body DOM, current
URL), which is outside the embedded state, so each probe is an oracle
outcome here. -/
inductive ProbeOutcome
  | ok (b : Bool)
  | err
deriving DecidableEq

/-- The per-probe `.catch(() => false)` wrapper: a rejected probe resolves
to `false`. -/
def probeCatch : ProbeOutcome → Bool
  | ProbeOutcome.ok b => b
  | ProbeOutcome.err => false

/-- The record returned by `detectChallengeEarly` (the `error` message field
of the failure path is omitted). -/
structure EarlyDetection where
  hasChallenge : Bool
  confidence : Confidence
  type : String
deriving DecidableEq

/-- Models `detectChallengeEarly(page)`: the three probes are caught individually
and OR-ed; the surrounding try/catch only fires when the detection machinery
itself throws before the probes are joined (`outerFault`). -/
def detectChallengeEarly (outerFault : Bool) (p1 p2 p3 : ProbeOutcome) : EarlyDetection :=
  if outerFault then
    { hasChallenge := false, confidence := Confidence.low, type := "detection_failed" }
  else
    let results := [probeCatch p1, probeCatch p2, probeCatch p3]
    let hasChallenge := results.any (fun r => r == true)
    { hasChallenge := hasChallenge,
      confidence := if hasChallenge then Confidence.high else Confidence.low,
      type := if hasChallenge then "early_detection" else "none" }

/-! Part: Sanitizer -/

/-- Models `entry.response.content` of a HAR entry. -/
structure HarContent where
  mimeType : Option String
deriving DecidableEq

/-- Models `entry.response` of a HAR entry. -/
structure HarResponse where
  bodySize : Option Int
  content : Option HarContent
deriving DecidableEq

/-- One HAR entry. -/
structure HarEntry where
  response : Option HarResponse
deriving DecidableEq

/-- A HAR archive; `entries` is `none` when absent or not an array. -/
structure Har where
  entries : Option (List HarEntry)
deriving DecidableEq

/-- Models `truncateHar(har, maxSize)`: keep the last 10 entries, drop entries with
`response.bodySize >= 10000` or an image/video mime type (the `maxSize`
argument is accepted but unused by the body, as in the source). -/
def truncateHar (har : Har) (maxSize : Nat) : Har :=
  match har.entries with
  | none => har
  | some entries =>
    let filteredEntries := (jsSliceLast entries 10).filter (fun entry =>
      let size := (entry.response.bind (fun r => r.bodySize)).getD 0
      let contentType := ((entry.response.bind (fun r => r.content)).bind (fun c => c.mimeType)).getD ""
      decide (size < 10000) && !jsIncludes contentType "image" && !jsIncludes contentType "video")
    { har with entries := some filteredEntries }

/-- The diagnostic payload handed to `sanitizeData`. -/
structure Payload where
  headers : Option (List (String × String))
  html : Option String
  har : Option Har
deriving DecidableEq

/-- The options record of `sanitizeData`. -/
structure SanOptions where
  removeHeaders : List String
  maxHtmlLength : Nat
  maxHarSize : Nat

/-- The JS default options of `sanitizeData`. -/
def defaultSanOptions : SanOptions :=
  { removeHeaders := ["authorization", "cookie", "x-api-key", "x-auth-token"],
    maxHtmlLength := 1000,
    maxHarSize := 50000 }

/-- The truncation marker appended to oversized HTML. -/
def TRUNCATION_MARKER : String := "... [TRUNCATED]"

/-- Models `sanitizeData(data, options)`: redact deny-listed headers, truncate the
`html` field (slice to `maxHtmlLength`, then append the marker when the
sliced length is still `>= maxHtmlLength`), truncate the HAR.  `!data` and
the truthiness guard on `html` (empty string is falsy) are kept. -/
def sanitizeData (data : Option Payload) (options : SanOptions) : Option Payload :=
  match data with
  | none => none
  | some d =>
    let headers2 :=
      match d.headers with
      | some hs => some (hs.map (fun kv =>
          if !options.removeHeaders.contains (jsToLower kv.1) then kv
          else (kv.1, "[REDACTED]")))
      | none => d.headers
    let html2 :=
      match d.html with
      | some h =>
        if h = "" then d.html
        else
          let sliced := jsSliceStr h options.maxHtmlLength
          some (if options.maxHtmlLength ≤ sliced.length then sliced ++ TRUNCATION_MARKER else sliced)
      | none => d.html
    let har2 :=
      match d.har with
      | some hr => some (truncateHar hr options.maxHarSize)
      | none => d.har
    some { headers := headers2, html := html2, har := har2 }

/-! Part: Concrete inputs used by witnesses and counterexamples -/

/-- A fixed ambient state: empty debounce map, clock at 0, random draw 0. -/
def ctx0 : ClassifyCtx := { debounce := emptyDebMap, now := 0, rand := 0 }

/-- A challenge-page bundle: HTTP 200, Cloudflare interstitial text, with a
timeout flag and a critical network error also present. -/
def c1Bundle : SignalBundle :=
  { statusCode := some 200,
    responseBody := some "Checking your browser before accessing the site - Cloudflare",
    consoleErrors := none,
    networkErrors := some [{ url := some "https://example.com/api", failureReason := none, method := none }],
    pageErrors := none, navigationTimeout := true, errorMessage := none,
    url := "https://www.example.com/hotel", contentType := "", requestId := none }

/-- A bundle whose request URL is non-critical (contains `ads`) while its one
failed sub-resource is critical. -/
def c3Bundle : SignalBundle :=
  { statusCode := none, responseBody := none, consoleErrors := none,
    networkErrors := some [{ url := some "https://example.com/api", failureReason := none, method := none }],
    pageErrors := none, navigationTimeout := false, errorMessage := none,
    url := "https://ads.example.com/page", contentType := "", requestId := none }

/-- A bundle with a critical request URL and one critical failed
sub-resource. -/
def c3wBundle : SignalBundle :=
  { statusCode := none, responseBody := none, consoleErrors := none,
    networkErrors := some [{ url := some "https://example.com/api", failureReason := none, method := none }],
    pageErrors := none, navigationTimeout := false, errorMessage := none,
    url := "https://example.com/page", contentType := "", requestId := none }

/-- A bundle whose only signals are two failed analytics sub-resources. -/
def c4Bundle : SignalBundle :=
  { statusCode := none, responseBody := none, consoleErrors := none,
    networkErrors := some
      [{ url := some "https://www.googletagmanager.com/gtm.js", failureReason := none, method := none },
       { url := some "https://googletagmanager.com/b.js", failureReason := none, method := none }],
    pageErrors := none, navigationTimeout := false, errorMessage := none,
    url := "https://example.com/hotel", contentType := "", requestId := none }

/-- A rate-limited bundle with a request id, used to observe the debounce
side-channel. -/
def c5Bundle : SignalBundle :=
  { statusCode := some 429, responseBody := none, consoleErrors := none,
    networkErrors := none, pageErrors := none, navigationTimeout := false,
    errorMessage := none, url := "https://example.com/h", contentType := "",
    requestId := some "req-1" }

/-- First-call state for the purity counterexample. -/
def c5CtxA : ClassifyCtx := { debounce := emptyDebMap, now := 1000, rand := 1/2 }

/-- Second-call state: the map left by the first call, one millisecond
later, same random draw. -/
def c5CtxB : ClassifyCtx := { debounce := (classifyError c5Bundle c5CtxA).2, now := 1001, rand := 1/2 }

/-- A rate-limited bundle with no challenge text and no request id. -/
def c7Bundle : SignalBundle :=
  { statusCode := some 429, responseBody := none, consoleErrors := none,
    networkErrors := none, pageErrors := none, navigationTimeout := false,
    errorMessage := none, url := "https://example.com/a", contentType := "",
    requestId := none }

/-- Ambient state for the backoff witness: random draw 1/2. -/
def c7Ctx : ClassifyCtx := { debounce := emptyDebMap, now := 5, rand := 1/2 }

/-- A 1000-character HTML string. -/
def c8Html : String := String.mk (List.replicate 1000 'A')

/-- A 2000-character HTML string. -/
def c8HtmlLong : String := String.mk (List.replicate 2000 'A')

/-- A payload whose html field has exactly 1000 characters. -/
def c8Payload : Payload := { headers := none, html := some c8Html, har := none }

/-- A payload whose html field has 2000 characters. -/
def c8wPayload : Payload := { headers := none, html := some c8HtmlLong, har := none }

/-- A 503 bundle with no other signals. -/
def c10Bundle : SignalBundle :=
  { statusCode := some 503, responseBody := none, consoleErrors := none,
    networkErrors := none, pageErrors := none, navigationTimeout := false,
    errorMessage := none, url := "https://example.com/x", contentType := "",
    requestId := none }

/-! Part: Helper lemmas -/

/-- Updating the debounce map stores the value under the key. -/
theorem debSet_self (m : DebMap) (k : String) (v : Nat) : debSet m k v k = some v := by
  simp [debSet]

/-- A filter by a predicate that is false on every element is empty. -/
theorem filter_eq_nil_all_false {α : Type} (l : List α) (p : α → Bool)
    (h : ∀ a ∈ l, p a = false) : l.filter p = [] := by
  rw [List.filter_eq_nil_iff]
  intro x hx
  simp [h x hx]

/-- The empty body never matches a challenge indicator. -/
theorem challengeBodyMatch_empty : challengeBodyMatch "" = false := by decide

/-- For a present status code, the blocking-status signal is the table
lookup guarded by JS zero-falsiness. -/
theorem hasBlockingStatus_of_statusCode (b : SignalBundle) (c : Int) (h : b.statusCode = some c) :
    (computeSignals b).hasBlockingStatus =
      (if c = 0 then false else (List.lookup c BLOCKING_STATUS_CODES).isSome) := by
  simp [computeSignals, h]

/-- C3 amended theorem: with no challenge text and a non-blocking status,
a bundle with at least one critical surviving network error is classified
`NETWORK_ERROR` (medium confidence, `retry_with_delay`, not a root cause)
provided additionally that the request URL itself is not a non-critical
resource, a condition the cascade also requires. -/
theorem classifyError_network_error (b : SignalBundle) (ctx : ClassifyCtx)
    (hch : (computeSignals b).hasChallengePage = false)
    (h429 : b.statusCode ≠ some 429)
    (h403 : b.statusCode ≠ some 403)
    (h451 : b.statusCode ≠ some 451)
    (hnf : (computeSignals b).hasNetworkFailures = true)
    (hcrit : (computeSignals b).isNonCriticalResource = false) :
    (classifyError b ctx).1.type = ErrorType.NETWORK_ERROR ∧
    (classifyError b ctx).1.confidence = Confidence.medium ∧
    (classifyError b ctx).1.suggestedAction = "retry_with_delay" ∧
    (classifyError b ctx).1.isRootCause = false := by
  simp [classifyError, hch, h429, h403, h451, hnf, hcrit]

/-- C3 counterexample: a bundle whose request URL contains `ads` (making
`signals.isNonCriticalResource` true) with one critical failed sub-resource
and no other signals is NOT classified `NETWORK_ERROR`; it falls through to
the fallback even though a critical entry survived the filter. -/
theorem network_error_noncritical_request_counterexample :
    (computeSignals c3Bundle).hasChallengePage = false ∧
    c3Bundle.statusCode = none ∧
    (computeSignals c3Bundle).hasNetworkFailures = true ∧
    (classifyError c3Bundle ctx0).1.type = ErrorType.UNKNOWN_TIMEOUT ∧
    (classifyError c3Bundle ctx0).1.type ≠ ErrorType.NETWORK_ERROR := by
  decide

/-- C3 witness: with a critical request URL and one critical failed
sub-resource, the amended network-error rule fires. -/
theorem network_error_witness :
    (computeSignals c3wBundle).hasChallengePage = false ∧
    (computeSignals c3wBundle).hasNetworkFailures = true ∧
    (computeSignals c3wBundle).isNonCriticalResource = false ∧
    ((classifyError c3wBundle ctx0).1.type = ErrorType.NETWORK_ERROR ∧
     (classifyError c3wBundle ctx0).1.confidence = Confidence.medium ∧
     (classifyError c3wBundle ctx0).1.suggestedAction = "retry_with_delay" ∧
     (classifyError c3wBundle ctx0).1.isRootCause = false) :=
  ⟨by decide, by decide, by decide,
   classifyError_network_error c3wBundle ctx0 (by decide) (by decide) (by decide) (by decide)
     (by decide) (by decide)⟩

/-- C4: when every `networkErrors` entry has a non-critical URL and no
challenge, blocking-status or timeout signal is set, the derived
`hasNetworkFailures` flag is false and the classification falls through to
the fallback: `UNKNOWN_TIMEOUT`, low confidence, `shouldLog = false`. -/
theorem classifyError_noncritical_only_fallback (b : SignalBundle) (ctx : ClassifyCtx)
    (errs : List NetworkError)
    (hch : (computeSignals b).hasChallengePage = false)
    (hbs : (computeSignals b).hasBlockingStatus = false)
    (ht : (computeSignals b).isTimeout = false)
    (hne : b.networkErrors = some errs)
    (hall : ∀ e ∈ errs, isNonCriticalResource (entryUrl e b.url) "" = true) :
    (computeSignals b).hasNetworkFailures = false ∧
    (classifyError b ctx).1.type = ErrorType.UNKNOWN_TIMEOUT ∧
    (classifyError b ctx).1.confidence = Confidence.low ∧
    (classifyError b ctx).1.shouldLog = false := by
  have hfil : errs.filter (fun e => !isNonCriticalResource (entryUrl e b.url) "") = [] :=
    filter_eq_nil_all_false errs _ (fun e he => by simp [hall e he])
  have hnf : (computeSignals b).hasNetworkFailures = false := by
    simp [computeSignals, hne, hfil]
  have h429 : b.statusCode ≠ some 429 := by
    intro h
    have := hasBlockingStatus_of_statusCode b 429 h
    rw [hbs] at this
    exact absurd this.symm (by decide)
  have h403 : b.statusCode ≠ some 403 := by
    intro h
    have := hasBlockingStatus_of_statusCode b 403 h
    rw [hbs] at this
    exact absurd this.symm (by decide)
  have h451 : b.statusCode ≠ some 451 := by
    intro h
    have := hasBlockingStatus_of_statusCode b 451 h
    rw [hbs] at this
    exact absurd this.symm (by decide)
  refine ⟨hnf, ?_⟩
  simp [classifyError, hch, h429, h403, h451, hnf, ht]

/-- C4 witness: a bundle with two failed `googletagmanager` sub-resources
and no other signals yields the fallback with network failures filtered
out. -/
theorem noncritical_only_fallback_witness :
    (computeSignals c4Bundle).hasChallengePage = false ∧
    (computeSignals c4Bundle).hasBlockingStatus = false ∧
    (computeSignals c4Bundle).isTimeout = false ∧
    ((computeSignals c4Bundle).hasNetworkFailures = false ∧
     (classifyError c4Bundle ctx0).1.type = ErrorType.UNKNOWN_TIMEOUT ∧
     (classifyError c4Bundle ctx0).1.confidence = Confidence.low ∧
     (classifyError c4Bundle ctx0).1.shouldLog = false) :=
  ⟨by decide, by decide, by decide,
   classifyError_noncritical_only_fallback c4Bundle ctx0 _ (by decide) (by decide) (by decide)
     rfl (by decide)⟩

/-- C10: a 503 bundle with no challenge text, no surviving network errors
and no timeout flag sets `signals.hasBlockingStatus` (503 is in the
blocking-status table) yet no cascade rule consults that flag or matches
503, so the result is the fallback `UNKNOWN_TIMEOUT` with low confidence,
`enable_debug_mode`, `shouldLog = false` and `isRootCause = false`. -/
theorem classifyError_503_fallback (b : SignalBundle) (ctx : ClassifyCtx)
    (hs : b.statusCode = some 503)
    (hch : (computeSignals b).hasChallengePage = false)
    (hnf : (computeSignals b).hasNetworkFailures = false)
    (ht : (computeSignals b).isTimeout = false) :
    (computeSignals b).hasBlockingStatus = true ∧
    (classifyError b ctx).1.type = ErrorType.UNKNOWN_TIMEOUT ∧
    (classifyError b ctx).1.confidence = Confidence.low ∧
    (classifyError b ctx).1.suggestedAction = "enable_debug_mode" ∧
    (classifyError b ctx).1.shouldLog = false ∧
    (classifyError b ctx).1.isRootCause = false := by
  have hbs : (computeSignals b).hasBlockingStatus = true := by
    rw [hasBlockingStatus_of_statusCode b 503 hs]
    decide
  refine ⟨hbs, ?_⟩
  simp [classifyError, hch, hs, hnf, ht]

/-- C10 witness: the concrete 503 bundle with no other signals lands in
the fallback while its blocking-status flag is set. -/
theorem blocking_503_fallback_witness :
    c10Bundle.statusCode = some 503 ∧
    ((computeSignals c10Bundle).hasBlockingStatus = true ∧
     (classifyError c10Bundle ctx0).1.type = ErrorType.UNKNOWN_TIMEOUT ∧
     (classifyError c10Bundle ctx0).1.confidence = Confidence.low ∧
     (classifyError c10Bundle ctx0).1.suggestedAction = "enable_debug_mode" ∧
     (classifyError c10Bundle ctx0).1.shouldLog = false ∧
     (classifyError c10Bundle ctx0).1.isRootCause = false) :=
  ⟨rfl, classifyError_503_fallback c10Bundle ctx0 rfl (by decide) (by decide) (by decide)⟩

/-- C1: a signal bundle whose response body (case-folded) contains any
challenge indicator substring is classified `CHALLENGE_PAGE` with high
confidence, action `use_residential_proxy` and `isRootCause = true`,
regardless of every other signal in the bundle and of the ambient state. -/
theorem classifyError_challenge_priority (b : SignalBundle) (ctx : ClassifyCtx) (body : String)
    (hb : b.responseBody = some body)
    (hm : challengeBodyMatch body = true) :
    (classifyError b ctx).1.type = ErrorType.CHALLENGE_PAGE ∧
    (classifyError b ctx).1.confidence = Confidence.high ∧
    (classifyError b ctx).1.suggestedAction = "use_residential_proxy" ∧
    (classifyError b ctx).1.isRootCause = true := by
  have hbody : body ≠ "" := by
    intro he
    rw [he] at hm
    exact absurd hm (by decide)
  have hch : (computeSignals b).hasChallengePage = true := by
    simp [computeSignals, hb, hbody, hm]
  simp [classifyError, hch]

/-- C1 witness: the Cloudflare interstitial bundle (HTTP 200, timeout flag
set, a critical network error present) is classified as a challenge page. -/
theorem challenge_priority_witness :
    c1Bundle.responseBody = some "Checking your browser before accessing the site - Cloudflare" ∧
    challengeBodyMatch "Checking your browser before accessing the site - Cloudflare" = true ∧
    ((classifyError c1Bundle ctx0).1.type = ErrorType.CHALLENGE_PAGE ∧
     (classifyError c1Bundle ctx0).1.confidence = Confidence.high ∧
     (classifyError c1Bundle ctx0).1.suggestedAction = "use_residential_proxy" ∧
     (classifyError c1Bundle ctx0).1.isRootCause = true) :=
  ⟨rfl, by decide,
   classifyError_challenge_priority c1Bundle ctx0
     "Checking your browser before accessing the site - Cloudflare" rfl (by decide)⟩

/-- C2: `classifyError` is a total function of the signal bundle and the
ambient state: every bundle (null status code, null body, absent error
lists, null error message included) yields a structured result whose type
is one of the fixed taxonomy members actually produced by the cascade,
whose confidence is one of the three levels, and which echoes the derived
signal flags. -/
theorem classifyError_total (b : SignalBundle) (ctx : ClassifyCtx) :
    ((classifyError b ctx).1.type = ErrorType.CHALLENGE_PAGE ∨
     (classifyError b ctx).1.type = ErrorType.RATE_LIMITED ∨
     (classifyError b ctx).1.type = ErrorType.BLOCKED ∨
     (classifyError b ctx).1.type = ErrorType.NETWORK_ERROR ∨
     (classifyError b ctx).1.type = ErrorType.SLOW_LOAD ∨
     (classifyError b ctx).1.type = ErrorType.UNKNOWN_TIMEOUT) ∧
    ((classifyError b ctx).1.confidence = Confidence.high ∨
     (classifyError b ctx).1.confidence = Confidence.medium ∨
     (classifyError b ctx).1.confidence = Confidence.low) ∧
    (classifyError b ctx).1.signals = computeSignals b := by
  unfold classifyError
  cases h1 : (computeSignals b).hasChallengePage <;>
  cases h4 : (computeSignals b).hasNetworkFailures <;>
  cases h5 : (computeSignals b).isNonCriticalResource <;>
  cases h6 : (computeSignals b).isTimeout <;>
  by_cases h2 : b.statusCode = some 429 <;>
  by_cases h3 : b.statusCode = some 403 ∨ b.statusCode = some 451 <;>
  simp [h1, h2, h3, h4, h5, h6]

/-- C5 counterexample: on the same rate-limited bundle, a first call (empty
debounce map) and an immediate second call (the map left by the first, one
millisecond later, same random draw) return different results: `shouldLog`
flips from true to false. -/
theorem classify_not_pure_counterexample :
    (classifyError c5Bundle c5CtxA).1.shouldLog = true ∧
    (classifyError c5Bundle c5CtxB).1.shouldLog = false ∧
    (classifyError c5Bundle c5CtxA).1 ≠ (classifyError c5Bundle c5CtxB).1 := by
  refine ⟨by decide, by decide, ?_⟩
  intro heq
  have h := congrArg Classification.shouldLog heq
  rw [show (classifyError c5Bundle c5CtxA).1.shouldLog = true from by decide,
      show (classifyError c5Bundle c5CtxB).1.shouldLog = false from by decide] at h
  exact absurd h (by decide)

/-- C5 amended theorem: `classifyError` is deterministic in the bundle once
the ambient state (debounce map, clock, random draw) is explicit, and every
result field except the side-channel `shouldLog` and the freshly drawn
`backoffHint` is a function of the bundle alone, identical across any two
process states. -/
theorem classifyError_state_independent_core (b : SignalBundle) (ctx1 ctx2 : ClassifyCtx) :
    (classifyError b ctx1).1.type = (classifyError b ctx2).1.type ∧
    (classifyError b ctx1).1.confidence = (classifyError b ctx2).1.confidence ∧
    (classifyError b ctx1).1.suggestedAction = (classifyError b ctx2).1.suggestedAction ∧
    (classifyError b ctx1).1.isRootCause = (classifyError b ctx2).1.isRootCause ∧
    (classifyError b ctx1).1.signals = (classifyError b ctx2).1.signals := by
  unfold classifyError
  cases h1 : (computeSignals b).hasChallengePage <;>
  cases h4 : (computeSignals b).hasNetworkFailures <;>
  cases h5 : (computeSignals b).isNonCriticalResource <;>
  cases h6 : (computeSignals b).isTimeout <;>
  by_cases h2 : b.statusCode = some 429 <;>
  by_cases h3 : b.statusCode = some 403 ∨ b.statusCode = some 451 <;>
  simp [h1, h2, h3, h4, h5, h6]

/-- C6: the debouncer returns true and records "now" when no entry exists
for the key or the entry is older than the cooldown, returns false without
updating otherwise; hence within one cooldown window two calls return
(true, false) and a third call after the window (measured from the first
emission) returns true again.  Recorded timestamps are positive `Date.now()`
values, expressed by the positivity hypotheses. -/
theorem shouldLogSuggestion_debounce_spec (m : DebMap) (sugg rid : String) (now cooldownMs : Nat) :
    (m (debKey rid sugg) = none →
      shouldLogSuggestion m sugg rid now cooldownMs = (true, debSet m (debKey rid sugg) now)) ∧
    (∀ last, m (debKey rid sugg) = some last → 0 < last →
      (((cooldownMs : Int) < (now : Int) - (last : Int)) →
        shouldLogSuggestion m sugg rid now cooldownMs = (true, debSet m (debKey rid sugg) now)) ∧
      (((now : Int) - (last : Int) ≤ (cooldownMs : Int)) →
        shouldLogSuggestion m sugg rid now cooldownMs = (false, m))) ∧
    (∀ t1 t2 t3 : Nat, m (debKey rid sugg) = none → 0 < t1 →
      (t2 : Int) - (t1 : Int) ≤ (cooldownMs : Int) →
      (cooldownMs : Int) < (t3 : Int) - (t1 : Int) →
      ((shouldLogSuggestion m sugg rid t1 cooldownMs).1 = true ∧
       (shouldLogSuggestion (shouldLogSuggestion m sugg rid t1 cooldownMs).2 sugg rid t2 cooldownMs).1 = false ∧
       (shouldLogSuggestion (shouldLogSuggestion (shouldLogSuggestion m sugg rid t1 cooldownMs).2 sugg rid t2 cooldownMs).2 sugg rid t3 cooldownMs).1 = true)) := by
  refine ⟨?_, ?_, ?_⟩
  · intro h
    simp [shouldLogSuggestion, h]
  · intro last h hpos
    constructor
    · intro hlt
      simp [shouldLogSuggestion, h, hlt]
    · intro hle
      have hne : ¬(last = 0) := by omega
      have hnlt : ¬((cooldownMs : Int) < (now : Int) - (last : Int)) := by omega
      simp [shouldLogSuggestion, h, hne, hnlt]
  · intro t1 t2 t3 h hpos hle hlt
    have s1 : shouldLogSuggestion m sugg rid t1 cooldownMs =
        (true, debSet m (debKey rid sugg) t1) := by
      simp [shouldLogSuggestion, h]
    have hget : debSet m (debKey rid sugg) t1 (debKey rid sugg) = some t1 :=
      debSet_self m (debKey rid sugg) t1
    have hne : ¬(t1 = 0) := by omega
    have hnlt : ¬((cooldownMs : Int) < (t2 : Int) - (t1 : Int)) := by omega
    have s2 : shouldLogSuggestion (debSet m (debKey rid sugg) t1) sugg rid t2 cooldownMs =
        (false, debSet m (debKey rid sugg) t1) := by
      simp [shouldLogSuggestion, hget, hne, hnlt]
    have s3 : (shouldLogSuggestion (debSet m (debKey rid sugg) t1) sugg rid t3 cooldownMs).1 = true := by
      simp [shouldLogSuggestion, hget, hlt]
    refine ⟨by simp [s1], by simp [s1, s2], by simp [s1, s2, s3]⟩

/-- C6 witness: from an empty map, calls at times 1000, 2000 and 7001 with
cooldown 5000 return true, false, true. -/
theorem debounce_spec_witness :
    emptyDebMap (debKey "r1" "retry_with_delay") = none ∧
    ((shouldLogSuggestion emptyDebMap "retry_with_delay" "r1" 1000 5000).1 = true ∧
     (shouldLogSuggestion (shouldLogSuggestion emptyDebMap "retry_with_delay" "r1" 1000 5000).2
        "retry_with_delay" "r1" 2000 5000).1 = false ∧
     (shouldLogSuggestion (shouldLogSuggestion (shouldLogSuggestion emptyDebMap "retry_with_delay" "r1" 1000 5000).2
        "retry_with_delay" "r1" 2000 5000).2 "retry_with_delay" "r1" 7001 5000).1 = true) :=
  ⟨rfl,
   (shouldLogSuggestion_debounce_spec emptyDebMap "retry_with_delay" "r1" 0 5000).2.2
     1000 2000 7001 rfl (by decide) (by decide) (by decide)⟩

/-- C7: a 429 bundle without challenge text is classified `RATE_LIMITED`
with a backoff hint freshly computed from this call's random draw; the
jitter lies in [0.85, 1.15], the suggested delay equals
min(baseDelay * jitter, maxDelay) with baseDelay 5000 and maxDelay 300000
and hence lies within [baseDelay * 0.85, maxDelay]; distinct draws yield
distinct hints (nothing is cached). -/
theorem classifyError_rate_limited_backoff (b : SignalBundle) (ctx : ClassifyCtx)
    (hs : b.statusCode = some 429)
    (hch : (computeSignals b).hasChallengePage = false)
    (hr0 : 0 ≤ ctx.rand) (hr1 : ctx.rand < 1) :
    (classifyError b ctx).1.type = ErrorType.RATE_LIMITED ∧
    (classifyError b ctx).1.backoffHint = some (calculateBackoffHint ctx.rand) ∧
    (calculateBackoffHint ctx.rand).baseDelay = 5000 ∧
    (calculateBackoffHint ctx.rand).maxDelay = 300000 ∧
    (0.85 ≤ (calculateBackoffHint ctx.rand).jitter ∧ (calculateBackoffHint ctx.rand).jitter ≤ 1.15) ∧
    (calculateBackoffHint ctx.rand).suggestedDelay =
      min ((calculateBackoffHint ctx.rand).baseDelay * (calculateBackoffHint ctx.rand).jitter)
        (calculateBackoffHint ctx.rand).maxDelay ∧
    ((calculateBackoffHint ctx.rand).baseDelay * 0.85 ≤ (calculateBackoffHint ctx.rand).suggestedDelay ∧
     (calculateBackoffHint ctx.rand).suggestedDelay ≤ (calculateBackoffHint ctx.rand).maxDelay) ∧
    (∀ r1 r2 : ℚ, r1 ≠ r2 → calculateBackoffHint r1 ≠ calculateBackoffHint r2) := by
  have hjit : (calculateBackoffHint ctx.rand).jitter = ctx.rand * 0.3 + 0.85 := rfl
  have hjlo : (0.85 : ℚ) ≤ (calculateBackoffHint ctx.rand).jitter := by
    rw [hjit]
    nlinarith
  have hjhi : (calculateBackoffHint ctx.rand).jitter ≤ 1.15 := by
    rw [hjit]
    nlinarith
  have hsug : (calculateBackoffHint ctx.rand).suggestedDelay =
      min ((5000 : ℚ) * (calculateBackoffHint ctx.rand).jitter) 300000 := rfl
  refine ⟨?_, ?_, rfl, rfl, ⟨hjlo, hjhi⟩, rfl, ⟨?_, ?_⟩, ?_⟩
  · simp [classifyError, hch, hs]
  · simp [classifyError, hch, hs]
  · rw [hsug]
    have h1 : (5000 : ℚ) * 0.85 ≤ 5000 * (calculateBackoffHint ctx.rand).jitter := by nlinarith
    have h2 : (5000 : ℚ) * 0.85 ≤ 300000 := by norm_num
    calc ((calculateBackoffHint ctx.rand).baseDelay * 0.85 : ℚ)
        = (5000 : ℚ) * 0.85 := rfl
      _ ≤ min ((5000 : ℚ) * (calculateBackoffHint ctx.rand).jitter) 300000 := le_min h1 h2
  · rw [hsug]
    exact min_le_right _ _
  · intro r1 r2 hne heq
    apply hne
    have hj := congrArg BackoffHint.jitter heq
    have hj2 : r1 * (0.3 : ℚ) + 0.85 = r2 * 0.3 + 0.85 := hj
    linarith

/-- C7 witness: the 429 bundle with draw 1/2 is rate limited and carries
the hint computed from that draw. -/
theorem rate_limited_backoff_witness :
    c7Bundle.statusCode = some 429 ∧ (0 : ℚ) ≤ c7Ctx.rand ∧ c7Ctx.rand < 1 ∧
    ((classifyError c7Bundle c7Ctx).1.type = ErrorType.RATE_LIMITED ∧
     (classifyError c7Bundle c7Ctx).1.backoffHint = some (calculateBackoffHint c7Ctx.rand)) :=
  ⟨rfl, by norm_num [c7Ctx], by norm_num [c7Ctx],
   (classifyError_rate_limited_backoff c7Bundle c7Ctx rfl (by decide) (by norm_num [c7Ctx])
      (by norm_num [c7Ctx])).1,
   (classifyError_rate_limited_backoff c7Bundle c7Ctx rfl (by decide) (by norm_num [c7Ctx])
      (by norm_num [c7Ctx])).2.1⟩

/-- Length of a packed character list. -/
theorem strLen_mk (l : List Char) : (String.mk l).length = l.length := rfl

/-- Length of a JS slice from position 0. -/
theorem jsSliceStr_length (s : String) (n : Nat) : (jsSliceStr s n).length = min n s.length :=
  List.length_take n s.data

/-- A slice bound at least the length returns the string unchanged. -/
theorem jsSliceStr_of_le (s : String) (n : Nat) (h : s.length ≤ n) : jsSliceStr s n = s := by
  cases s with
  | mk data =>
    rw [strLen_mk] at h
    rw [jsSliceStr]
    rw [List.take_of_length_le h]

/-- C8 amended theorem: under the default options, an `html` field of length
at least 1000 is replaced by its first 1000 characters followed by the
truncation marker, and an `html` field of length strictly below 1000 is
returned unchanged. -/
theorem sanitizeData_html_truncation (p : Payload) (h : String) (hh : p.html = some h) :
    (1000 ≤ h.length →
      (sanitizeData (some p) defaultSanOptions).bind Payload.html =
        some (jsSliceStr h 1000 ++ TRUNCATION_MARKER)) ∧
    (h.length < 1000 →
      (sanitizeData (some p) defaultSanOptions).bind Payload.html = some h) := by
  constructor
  · intro hlen
    have hne : h ≠ "" := by
      intro he
      rw [he] at hlen
      exact absurd hlen (by decide)
    have hcond : 1000 ≤ (jsSliceStr h 1000).length := by
      rw [jsSliceStr_length]
      omega
    simp [sanitizeData, hh, hne, defaultSanOptions, hcond]
  · intro hlen
    by_cases hne : h = ""
    · simp [sanitizeData, hh, hne]
    · have hcond : ¬(1000 ≤ (jsSliceStr h 1000).length) := by
        rw [jsSliceStr_length]
        omega
      have hslice : jsSliceStr h 1000 = h := jsSliceStr_of_le h 1000 (by omega)
      simp [sanitizeData, hh, hne, defaultSanOptions, hcond, hslice]
      intro hc
      exact absurd hc (by omega)

/-- C8 counterexample: an `html` field of exactly 1000 characters is not
returned unchanged: the marker is appended because the post-slice length
check uses a non-strict comparison. -/
theorem sanitize_exact_limit_counterexample :
    c8Html.length = 1000 ∧
    (sanitizeData (some c8Payload) defaultSanOptions).bind Payload.html =
      some (c8Html ++ TRUNCATION_MARKER) ∧
    (sanitizeData (some c8Payload) defaultSanOptions).bind Payload.html ≠ some c8Html := by
  have hlen : c8Html.length = 1000 := by
    have h0 : c8Html.length = (List.replicate 1000 'A').length := rfl
    rw [h0, List.length_replicate]
  have hne : c8Html ≠ "" := by
    intro he
    rw [he] at hlen
    exact absurd hlen (by decide)
  have hslice : jsSliceStr c8Html 1000 = c8Html := by
    show String.mk ((List.replicate 1000 'A').take 1000) = c8Html
    rw [List.take_replicate]
    norm_num [c8Html]
  have hcond : 1000 ≤ (jsSliceStr c8Html 1000).length := by
    rw [hslice, hlen]
  have heq : (sanitizeData (some c8Payload) defaultSanOptions).bind Payload.html =
      some (c8Html ++ TRUNCATION_MARKER) := by
    have hp : c8Payload.html = some c8Html := rfl
    simp [sanitizeData, hp, hne, defaultSanOptions, hcond, hslice, c8Payload]
    intro hc
    rw [hlen] at hc
    exact absurd hc (lt_irrefl 1000)
  refine ⟨hlen, heq, ?_⟩
  rw [heq]
  intro hcontra
  have hinj := Option.some.inj hcontra
  have hlen2 := congrArg String.length hinj
  rw [String.length_append, hlen] at hlen2
  have hm : TRUNCATION_MARKER.length = 15 := rfl
  rw [hm] at hlen2
  omega

/-- C8 witness: a 2000-character html field is truncated to its first 1000
characters plus the 15-character marker, a string of length 1015 ending in
the marker. -/
theorem sanitize_truncation_witness :
    c8wPayload.html = some c8HtmlLong ∧
    1000 ≤ c8HtmlLong.length ∧
    (sanitizeData (some c8wPayload) defaultSanOptions).bind Payload.html =
      some (jsSliceStr c8HtmlLong 1000 ++ TRUNCATION_MARKER) ∧
    jsSliceStr c8HtmlLong 1000 = c8Html ∧
    (jsSliceStr c8HtmlLong 1000 ++ TRUNCATION_MARKER).length = 1000 + 15 := by
  have hlong : c8HtmlLong.length = 2000 := by
    have h0 : c8HtmlLong.length = (List.replicate 2000 'A').length := rfl
    rw [h0, List.length_replicate]
  have hge : 1000 ≤ c8HtmlLong.length := by omega
  have hslice : jsSliceStr c8HtmlLong 1000 = c8Html := by
    show String.mk ((List.replicate 2000 'A').take 1000) = c8Html
    rw [List.take_replicate]
    norm_num [c8Html]
  refine ⟨rfl, hge, (sanitizeData_html_truncation c8wPayload c8HtmlLong rfl).1 hge, hslice, ?_⟩
  rw [hslice, String.length_append]
  have hlen : c8Html.length = 1000 := by
    have h0 : c8Html.length = (List.replicate 1000 'A').length := rfl
    rw [h0, List.length_replicate]
  rw [hlen]
  rfl

/-- C9 counterexample: when all three probes themselves fail (each rejects
and is caught to false) and the outer machinery does not fault, the result
type is `none`, not `detection_failed`. -/
theorem detect_failed_probes_counterexample :
    detectChallengeEarly false ProbeOutcome.err ProbeOutcome.err ProbeOutcome.err =
      { hasChallenge := false, confidence := Confidence.low, type := "none" } ∧
    (detectChallengeEarly false ProbeOutcome.err ProbeOutcome.err ProbeOutcome.err).type ≠
      "detection_failed" := by
  decide

/-- C9 amended theorem: `detection_failed` is produced exactly when the
detection machinery itself faults before the probes are joined; otherwise
any probe resolving true yields hasChallenge true with high confidence, and
all probes resolving or failing to false (probe failures being
indistinguishable from false) yields hasChallenge false with low confidence
and type `none`. -/
theorem detectChallengeEarly_spec (p1 p2 p3 : ProbeOutcome) :
    detectChallengeEarly true p1 p2 p3 =
      { hasChallenge := false, confidence := Confidence.low, type := "detection_failed" } ∧
    ((probeCatch p1 || probeCatch p2 || probeCatch p3) = true →
      detectChallengeEarly false p1 p2 p3 =
        { hasChallenge := true, confidence := Confidence.high, type := "early_detection" }) ∧
    ((probeCatch p1 || probeCatch p2 || probeCatch p3) = false →
      detectChallengeEarly false p1 p2 p3 =
        { hasChallenge := false, confidence := Confidence.low, type := "none" }) := by
  refine ⟨rfl, ?_, ?_⟩ <;>
    (intro h
     cases hp1 : probeCatch p1 <;> cases hp2 : probeCatch p2 <;> cases hp3 : probeCatch p3 <;>
       simp_all [detectChallengeEarly])

/-- C9 witness: one successful true probe yields a high-confidence early
detection. -/
theorem detect_spec_witness :
    (probeCatch (ProbeOutcome.ok true) || probeCatch ProbeOutcome.err || probeCatch ProbeOutcome.err) = true ∧
    detectChallengeEarly false (ProbeOutcome.ok true) ProbeOutcome.err ProbeOutcome.err =
      { hasChallenge := true, confidence := Confidence.high, type := "early_detection" } :=
  ⟨by decide,
   (detectChallengeEarly_spec (ProbeOutcome.ok true) ProbeOutcome.err ProbeOutcome.err).2.1 (by decide)⟩
